import Mathlib

/-!
Shallow embedding of the `Auth_services` user-management service
(FastAPI application under `src/app/`): the credential hasher, the JWT
token codec, the authenticator functions, the access guard
`get_current_user`, and the HTTP route handlers of `routers/auth.py`
and `routers/users.py`.  The database is modelled as a list of user
rows; timestamps are UTC seconds as natural numbers.
-/

namespace AuthService

/-- An HTTP error response, as raised by `fastapi.HTTPException`:
a status code and a detail message. -/
structure HTTPException where
  status_code : Nat
  detail : String
  deriving Repr, DecidableEq

/-- Python truthiness of an optional boolean column / claim value:
`None` and `False` are falsy, `True` is truthy. -/
def truthyOptBool : Option Bool → Bool
  | none => false
  | some b => b

/-- A row of the `users` table (`app/models/user.py`): integer primary
key `id`, `name` (no unique constraint in the model), `email` (unique),
`password` (the stored credential string), nullable `role` and
`is_admin` columns. -/
structure User where
  id : Nat
  name : String
  email : String
  password : String
  role : Option String
  is_admin : Option Bool
  deriving Repr, DecidableEq

/-- Request body of registration and of the admin create route
(`app/schemas.py`, `CreateUser`): name, email, password only — no role
or admin field exists in the schema. -/
structure CreateUser where
  name : String
  email : String
  password : String
  deriving Repr, DecidableEq

/-- Request body of the update-role route (`app/schemas.py`,
`UpdateUser`): optional role and admin flag. -/
structure UpdateUser where
  role : Option String
  is_admin : Option Bool
  deriving Repr, DecidableEq

/-- Response row of the list-users route (`app/schemas.py`,
`ViewsUser`): only id, name and email — no password field. -/
structure ViewsUser where
  id : Nat
  name : String
  email : String
  deriving Repr, DecidableEq

/-- Model of the external passlib bcrypt context's `hash`
(`bcrypt_context.hash`): a deterministic stand-in producing a digest
distinct from the plaintext (a bcrypt digest starts with a `$2b$`
prefix; salting is not observable through `verify` and is elided). -/
def bcrypt_hash (plaintext : String) : String :=
  "$2b$12$" ++ plaintext

/-- Model of the external passlib bcrypt context's `verify`
(`bcrypt_context.verify`): true exactly when the digest is the hash of
the plaintext. -/
def bcrypt_verify (plaintext digest : String) : Bool :=
  digest == bcrypt_hash plaintext

/-- The JWT claims payload built by `create_access_token` and read by
`get_current_user` via `payload.get(...)`: keys `sub`, `id`,
`is_role`, `is_admin`, `exp`.  `none` models an absent key or a null
value (both behave identically under `payload.get` and truthiness). -/
structure JWTPayload where
  sub : Option String
  id : Option Nat
  is_role : Option String
  is_admin : Option Bool
  exp : Option Nat
  deriving Repr, DecidableEq

/-- A structurally well-formed JWT: its claims payload plus the secret
under which its signature was computed. -/
structure JWT where
  payload : JWTPayload
  secret : String
  deriving Repr, DecidableEq

/-- An inbound bearer token: either a well-formed signed JWT or an
unparseable string. -/
inductive Token where
  | jwt (t : JWT)
  | malformed (s : String)
  deriving Repr, DecidableEq

/-- Failures of the external `jose.jwt.decode`: `expiredSignature`
models `ExpiredSignatureError`, `invalid` models any other `JWTError`
(bad signature or malformed token). -/
inductive JWTError where
  | expiredSignature
  | invalid
  deriving Repr, DecidableEq

/-- Model of the external `jose.jwt.decode(token, secret, algorithms)`:
the signature is verified first (failure is a generic `JWTError`); then
the `exp` claim, when present, is validated against the current time,
an elapsed expiry raising `ExpiredSignatureError`.  An absent `exp` is
not required by default. -/
def jwt_decode (token : Token) (secret : String) (now : Nat) :
    Except JWTError JWTPayload :=
  match token with
  | .malformed _ => .error .invalid
  | .jwt t =>
    if t.secret = secret then
      match t.payload.exp with
      | some e => if e < now then .error .expiredSignature else .ok t.payload
      | none => .ok t.payload
    else
      .error .invalid

/-- Function `create_access_token` (`app/auth_service.py`, lines 56-60): builds
the claims dict `{sub, id, is_role, is_admin}`, adds `exp = now +
expires_delta`, and signs it with the server secret.  `is_role` and
`is_admin` carry the user row's nullable columns. -/
def create_access_token (username : String) (user_id : Nat)
    (is_role : Option String) (is_admin : Option Bool)
    (expires_delta : Nat) (now : Nat) (secret : String) : Token :=
  .jwt ⟨⟨some username, some user_id, is_role, is_admin,
         some (now + expires_delta)⟩, secret⟩

/-- The identity context dict returned by `get_current_user`:
`{'username': ..., 'id': ..., 'is_admin': ...}`, each value taken from
`payload.get` and hence possibly `None`. -/
structure IdentityContext where
  username : Option String
  id : Option Nat
  is_admin : Option Bool
  deriving Repr, DecidableEq

/-- The body of `get_current_user` after a successful decode
(`app/auth_service.py`, lines 25-43): reads the claims, rejects with
403 when the admin claim is absent or falsy, then rejects with 401
when the expiry claim is absent or in the past, and otherwise returns
the identity context.  The admin check textually precedes the expiry
re-check. -/
def processPayload (payload : JWTPayload) (now : Nat) :
    Except HTTPException IdentityContext :=
  if ¬ truthyOptBool payload.is_admin then
    .error ⟨403, "Доступ запрещен. Необходимы права администратора."⟩
  else
    match payload.exp with
    | none => .error ⟨401, "Token expired or not supplied!"⟩
    | some e =>
      if e < now then .error ⟨401, "Token expired or not supplied!"⟩
      else .ok ⟨payload.sub, payload.id, payload.is_admin⟩

/-- Function `get_current_user` (`app/auth_service.py`, lines 22-53): decodes
the bearer token; `ExpiredSignatureError` maps to 401 "Token
expired!", any other `JWTError` to 401 "Could not validate user"; a
successful decode proceeds to the claim checks of `processPayload`. -/
def get_current_user (token : Token) (secret : String) (now : Nat) :
    Except HTTPException IdentityContext :=
  match jwt_decode token secret now with
  | .error .expiredSignature => .error ⟨401, "Token expired!"⟩
  | .error .invalid => .error ⟨401, "Could not validate user"⟩
  | .ok payload => processPayload payload now

/-- Model of `db.scalar(select(User).where(User.name == username))`: the first
stored row with the given name, if any. -/
def findUserByName (db : List User) (username : String) : Option User :=
  db.find? (fun u => u.name == username)

/-- Model of `db.scalar(select(User).where(User.id == user_id))`: the first
stored row with the given id, if any. -/
def findUserById (db : List User) (user_id : Nat) : Option User :=
  db.find? (fun u => u.id == user_id)

/-- Function `authenticate_user` (`app/auth_service.py`, lines 63-86): look up
by name (401 "Пользователь не найден" if absent), then require the
admin flag (403 if falsy), then verify the password (401 "Неверные
учетные данные" on mismatch); returns the user row otherwise. -/
def authenticate_user (db : List User) (username password : String) :
    Except HTTPException User :=
  match findUserByName db username with
  | none => .error ⟨401, "Пользователь не найден"⟩
  | some user =>
    if ¬ truthyOptBool user.is_admin then
      .error ⟨403, "Доступ запрещен. Необходимы права администратора."⟩
    else if ¬ bcrypt_verify password user.password then
      .error ⟨401, "Неверные учетные данные"⟩
    else
      .ok user

/-- Function `authenticate_normal_user` (`app/auth_service.py`, lines 89-103):
look up by name (401 if absent), then verify the password (401 on
mismatch); no admin check. -/
def authenticate_normal_user (db : List User) (username password : String) :
    Except HTTPException User :=
  match findUserByName db username with
  | none => .error ⟨401, "Пользователь не найден"⟩
  | some user =>
    if ¬ bcrypt_verify password user.password then
      .error ⟨401, "Неверные учетные данные"⟩
    else
      .ok user

/-- The login response `{'access_token': token, 'token_type': 'bearer'}`. -/
structure TokenResponse where
  access_token : Token
  token_type : String
  deriving Repr, DecidableEq

/-- Seconds in `timedelta(minutes=20)` in seconds. -/
def twentyMinutes : Nat := 20 * 60

/-- True when some stored row already has this email (`email` is the
only unique-constrained string column of the `users` table, so this is
the condition under which an insert raises `IntegrityError`). -/
def emailExists (db : List User) (email : String) : Bool :=
  db.any (fun u => u.email == email)

/-- The autoincrement primary key assigned to the next inserted row. -/
def nextId (db : List User) : Nat :=
  (db.map (fun u => u.id)).foldr max 0 + 1

/-- Response dict of the registration route: `status_code` is present
only on the success path; `transaction` is the message. -/
structure RegisterResponse where
  status_code : Option Nat
  transaction : String
  deriving Repr, DecidableEq

namespace Auth

/-- Function `create_user` of `app/routers/auth.py` (POST `/auth/`, lines
22-51): inserts a row with the supplied name and email, the bcrypt
hash of the supplied password, role fixed to `'client'` and `is_admin`
fixed to `False`; commits and returns 201.  An `IntegrityError`
(duplicate unique column) rolls back, leaving the store unchanged, and
returns the duplicate-conflict message. -/
def create_user (db : List User) (created_user : CreateUser) :
    List User × RegisterResponse :=
  if emailExists db created_user.email then
    (db, ⟨none, "Пользователь с таким именем или email уже существует"⟩)
  else
    (db ++ [⟨nextId db, created_user.name, created_user.email,
             bcrypt_hash created_user.password, some "client", some false⟩],
     ⟨some 201, "Пользователь успешно создан"⟩)

/-- Function `login` of `app/routers/auth.py` (POST `/auth/token`, lines
55-73): authenticates via `authenticate_normal_user` and issues a
token with a 20-minute expiry carrying the user's name, id, role and
admin flag. -/
def login (db : List User) (username password : String)
    (secret : String) (now : Nat) : Except HTTPException TokenResponse :=
  match authenticate_normal_user db username password with
  | .error e => .error e
  | .ok user =>
    .ok ⟨create_access_token user.name user.id user.role user.is_admin
           twentyMinutes now secret, "bearer"⟩

end Auth

/-- Projection of a user row to the `ViewsUser` response model:
FastAPI serializes each row through `ViewsUser`, keeping only id, name
and email. -/
def toViewsUser (u : User) : ViewsUser :=
  ⟨u.id, u.name, u.email⟩

/-- Response body of the admin create route (`UserResponse` of
`app/schemas.py`): status code, message, and the transaction status
string. -/
structure UserResponse where
  status_code : Nat
  message : String
  transaction_status : String
  deriving Repr, DecidableEq

/-- Failures of the admin create route: an `HTTPException` raised by
the handler, or an uncaught `IntegrityError` propagating out (this
handler has no try/except around its insert). -/
inductive UsersCreateError where
  | http (e : HTTPException)
  | integrity
  deriving Repr, DecidableEq

namespace Users

/-- Function `all_users` of `app/routers/users.py` (GET `/user/all`, lines
17-47): requires a truthy admin flag on the resolved identity (403
otherwise), then returns the page `offset skip limit limit` of the
users table, serialized through `ViewsUser`. -/
def all_users (db : List User) (current_user : IdentityContext)
    (skip limit : Nat) : Except HTTPException (List ViewsUser) :=
  if truthyOptBool current_user.is_admin then
    .ok (((db.drop skip).take limit).map toViewsUser)
  else
    .error ⟨403, "Доступ запрещен. Необходимы права администратора."⟩

/-- Function `create_user` of `app/routers/users.py` (POST `/user/create`,
lines 51-88): requires a truthy admin flag (401 otherwise), then
inserts a row with only name, email and the password exactly as
supplied — no hashing, and no role or `is_admin` value (the columns
stay null).  A duplicate email raises an uncaught `IntegrityError`. -/
def create_user (db : List User) (created_user : CreateUser)
    (get_user : IdentityContext) :
    Except UsersCreateError (List User × UserResponse) :=
  if truthyOptBool get_user.is_admin then
    if emailExists db created_user.email then
      .error .integrity
    else
      .ok (db ++ [⟨nextId db, created_user.name, created_user.email,
                   created_user.password, none, none⟩],
           ⟨201, "Пользователь успешно создан!", "Successful"⟩)
  else
    .error (.http ⟨401, "You must be an admin user for this"⟩)

/-- Function `update_user` of `app/routers/users.py` (PUT
`/user/update_role/{user_id}`, lines 92-132): requires a truthy admin
flag (403 otherwise), 404 when no row has the id, and otherwise sets
the row's role and admin flag from the request body. -/
def update_user (db : List User) (user_id : Nat)
    (updated_user : UpdateUser) (current_user : IdentityContext) :
    Except HTTPException (List User × String) :=
  if truthyOptBool current_user.is_admin then
    match findUserById db user_id with
    | none => .error ⟨404, "Пользователь не найден"⟩
    | some _ =>
      .ok (db.map (fun u =>
             if u.id = user_id then
               { u with role := updated_user.role,
                        is_admin := updated_user.is_admin }
             else u),
           "Пользователь успешно обновлен")
  else
    .error ⟨403, "Доступ запрещен. Необходимы права администратора."⟩

/-- Function `delete_user` of `app/routers/users.py` (DELETE
`/user/delete/{user_id}`, lines 136-172): requires a truthy admin flag
(403 otherwise), 404 when no row has the id, and otherwise removes the
row. -/
def delete_user (db : List User) (user_id : Nat)
    (current_user : IdentityContext) :
    Except HTTPException (List User × String) :=
  if truthyOptBool current_user.is_admin then
    match findUserById db user_id with
    | none => .error ⟨404, "Пользователь не найден"⟩
    | some _ =>
      .ok (db.filter (fun u => u.id ≠ user_id),
           "Пользователь успешно удален")
  else
    .error ⟨403, "Доступ запрещен. Необходимы права администратора."⟩

end Users

/-! ## Shared helper lemmas -/

/-- Truthiness of an optional boolean is `true` exactly for `some true`. -/
theorem truthyOptBool_eq_true_iff (o : Option Bool) :
    truthyOptBool o = true ↔ o = some true := by
  cases o <;> simp [truthyOptBool]

/-! ## Claims -/

/-- C1, counterexample: the claim says login (POST `/auth/token`)
requires an admin user and fails 403 for a stored non-admin user with
correct credentials.  On the code, login authenticates via
`authenticate_normal_user`, which never consults the admin flag: the
stored user "bob" with `is_admin = some false` and correct password
receives a bearer token. -/
theorem C1_counterexample :
    Auth.login
        [⟨1, "bob", "b@x.com", bcrypt_hash "pw", some "client", some false⟩]
        "bob" "pw" "s" 0 =
      .ok ⟨create_access_token "bob" 1 (some "client") (some false)
             twentyMinutes 0 "s", "bearer"⟩ := by
  rfl

/-- C1 (amended): login does not require an admin user — for every
stored user found by name whose password verifies, login returns a
bearer token with a 20-minute expiry carrying that user's claims,
regardless of the user's admin flag. -/
theorem C1_login_ignores_admin_flag (db : List User)
    (username password secret : String) (now : Nat) (u : User)
    (hfind : findUserByName db username = some u)
    (hpw : bcrypt_verify password u.password = true) :
    Auth.login db username password secret now =
      .ok ⟨create_access_token u.name u.id u.role u.is_admin
             twentyMinutes now secret, "bearer"⟩ := by
  unfold Auth.login authenticate_normal_user
  rw [hfind]
  simp [hpw]

/-- C1 witness: a concrete non-admin user logging in successfully. -/
theorem C1_login_ignores_admin_flag_witness :
    Auth.login [⟨2, "eve", "e@x.com", bcrypt_hash "pw2", some "client", none⟩]
        "eve" "pw2" "k" 5 =
      .ok ⟨create_access_token "eve" 2 (some "client") none
             twentyMinutes 5 "k", "bearer"⟩ :=
  C1_login_ignores_admin_flag _ "eve" "pw2" "k" 5
    ⟨2, "eve", "e@x.com", bcrypt_hash "pw2", some "client", none⟩
    (by decide) (by decide)

/-- C2, counterexample: the claim says user names are unique and a
second registration with the same name and any email fails without
creating a row.  On the code only `email` carries a unique constraint:
registering "alice" twice with distinct emails succeeds both times and
leaves two rows. -/
theorem C2_counterexample :
    (Auth.create_user [] ⟨"alice", "a@x.com", "pw1"⟩).2.status_code =
        some 201 ∧
    (Auth.create_user (Auth.create_user [] ⟨"alice", "a@x.com", "pw1"⟩).1
        ⟨"alice", "b@y.com", "pw2"⟩).2.status_code = some 201 ∧
    (Auth.create_user (Auth.create_user [] ⟨"alice", "a@x.com", "pw1"⟩).1
        ⟨"alice", "b@y.com", "pw2"⟩).1.length = 2 := by
  decide

/-- C2 (amended): emails — not names — are unique: after a successful
registration, a second registration with the same email fails with the
duplicate-conflict message and leaves the stored user set unchanged. -/
theorem C2_duplicate_email_conflict (db : List User) (u1 u2 : CreateUser)
    (hfresh : emailExists db u1.email = false)
    (hsame : u2.email = u1.email) :
    (Auth.create_user db u1).2.status_code = some 201 ∧
    Auth.create_user (Auth.create_user db u1).1 u2 =
      ((Auth.create_user db u1).1,
       ⟨none, "Пользователь с таким именем или email уже существует"⟩) := by
  have hdup : emailExists
      (db ++ [⟨nextId db, u1.name, u1.email, bcrypt_hash u1.password,
               some "client", some false⟩]) u2.email = true := by
    unfold emailExists
    simp [List.any_append, hsame]
  unfold Auth.create_user
  simp [hfresh, hdup]

/-- C2 witness: concrete duplicate-email registration rejected. -/
theorem C2_duplicate_email_conflict_witness :
    (Auth.create_user [] ⟨"alice", "a@x.com", "pw1"⟩).2.status_code =
        some 201 ∧
    Auth.create_user (Auth.create_user [] ⟨"alice", "a@x.com", "pw1"⟩).1
        ⟨"bob", "a@x.com", "pw2"⟩ =
      ((Auth.create_user [] ⟨"alice", "a@x.com", "pw1"⟩).1,
       ⟨none, "Пользователь с таким именем или email уже существует"⟩) :=
  C2_duplicate_email_conflict [] ⟨"alice", "a@x.com", "pw1"⟩
    ⟨"bob", "a@x.com", "pw2"⟩ (by decide) (by decide)

/-- C3: in the access guard's post-decode checks, the admin-claim
check runs before the expiry re-check: any payload with an absent or
falsy admin claim yields 403 Forbidden (whatever its expiry, even one
already elapsed), and a payload with admin `true` reaches the expiry
re-check, which yields 401 when the expiry claim is absent or in the
past. -/
theorem C3_admin_check_before_expiry_recheck (payload : JWTPayload)
    (now : Nat) :
    (truthyOptBool payload.is_admin = false →
      processPayload payload now =
        .error ⟨403, "Доступ запрещен. Необходимы права администратора."⟩) ∧
    (payload.is_admin = some true →
      (payload.exp = none ∨ ∃ e, payload.exp = some e ∧ e < now) →
      processPayload payload now =
        .error ⟨401, "Token expired or not supplied!"⟩) := by
  constructor
  · intro h
    unfold processPayload
    simp [h]
  · intro hadm hexp
    unfold processPayload
    rcases hexp with h | ⟨e, he, hlt⟩
    · simp [hadm, truthyOptBool, h]
    · simp [hadm, truthyOptBool, he, hlt]

/-- C3 witness: an already-expired payload without the admin claim is
reported 403 (admin check first), and an admin payload with no expiry
claim is reported 401. -/
theorem C3_admin_check_before_expiry_recheck_witness :
    processPayload ⟨some "a", some 1, none, none, some 0⟩ 5 =
      .error ⟨403, "Доступ запрещен. Необходимы права администратора."⟩ ∧
    processPayload ⟨some "a", some 1, none, some true, none⟩ 5 =
      .error ⟨401, "Token expired or not supplied!"⟩ :=
  ⟨(C3_admin_check_before_expiry_recheck ⟨some "a", some 1, none, none, some 0⟩
      5).1 rfl,
   (C3_admin_check_before_expiry_recheck ⟨some "a", some 1, none, some true, none⟩
      5).2 rfl (Or.inl rfl)⟩

/-- C4: a correctly signed token whose embedded expiry is in the past
always fails identity resolution with the expiry 401 error, whatever
the other claim contents — in particular whatever the admin flag. -/
theorem C4_expired_token_fails_unauthorized (p : JWTPayload)
    (secret : String) (now e : Nat) (hexp : p.exp = some e)
    (hlt : e < now) :
    get_current_user (.jwt ⟨p, secret⟩) secret now =
      .error ⟨401, "Token expired!"⟩ := by
  unfold get_current_user jwt_decode
  simp [hexp, hlt]

/-- C4 witness: an expired token carrying admin `true` still fails
with the expiry error. -/
theorem C4_expired_token_fails_unauthorized_witness :
    get_current_user (.jwt ⟨⟨some "a", some 1, some "admin", some true,
        some 3⟩, "s"⟩) "s" 10 = .error ⟨401, "Token expired!"⟩ :=
  C4_expired_token_fails_unauthorized
    ⟨some "a", some 1, some "admin", some true, some 3⟩ "s" 10 3
    rfl (by decide)

/-- C5: `authenticate_user` checks existence, then admin tier, then
credential: unknown name fails 401 NotFound regardless of the
password; a stored non-admin fails 403 Forbidden regardless of whether
the password verifies; a stored admin with a failing password fails
401 InvalidCredentials; and the user is returned exactly when the name
exists, the admin flag is truthy and the password verifies. -/
theorem C5_authenticate_user_check_order (db : List User)
    (username password : String) :
    (findUserByName db username = none →
      authenticate_user db username password =
        .error ⟨401, "Пользователь не найден"⟩) ∧
    (∀ u, findUserByName db username = some u →
      truthyOptBool u.is_admin = false →
      authenticate_user db username password =
        .error ⟨403, "Доступ запрещен. Необходимы права администратора."⟩) ∧
    (∀ u, findUserByName db username = some u →
      truthyOptBool u.is_admin = true →
      bcrypt_verify password u.password = false →
      authenticate_user db username password =
        .error ⟨401, "Неверные учетные данные"⟩) ∧
    (∀ u, findUserByName db username = some u →
      truthyOptBool u.is_admin = true →
      bcrypt_verify password u.password = true →
      authenticate_user db username password = .ok u) ∧
    (∀ u, authenticate_user db username password = .ok u →
      findUserByName db username = some u ∧
      truthyOptBool u.is_admin = true ∧
      bcrypt_verify password u.password = true) := by
  refine ⟨?_, ?_, ?_, ?_, ?_⟩
  · intro h
    unfold authenticate_user
    rw [h]
  · intro u hu hadm
    unfold authenticate_user
    rw [hu]
    simp [hadm]
  · intro u hu hadm hpw
    unfold authenticate_user
    rw [hu]
    simp [hadm, hpw]
  · intro u hu hadm hpw
    unfold authenticate_user
    rw [hu]
    simp [hadm, hpw]
  · intro u h
    unfold authenticate_user at h
    cases hfind : findUserByName db username with
    | none => rw [hfind] at h; exact absurd h (by simp)
    | some v =>
      rw [hfind] at h
      by_cases hadm : truthyOptBool v.is_admin
      · by_cases hpw : bcrypt_verify password v.password
        · simp [hadm, hpw] at h
          subst h
          exact ⟨rfl, hadm, hpw⟩
        · simp [hadm, hpw] at h
      · simp [hadm] at h

/-- C5 witness: concrete instances of the NotFound, Forbidden and
success branches. -/
theorem C5_authenticate_user_check_order_witness :
    authenticate_user
        [⟨1, "root", "r@x.com", bcrypt_hash "pw", some "admin", some true⟩]
        "root" "pw" =
      .ok ⟨1, "root", "r@x.com", bcrypt_hash "pw", some "admin", some true⟩ ∧
    authenticate_user
        [⟨1, "root", "r@x.com", bcrypt_hash "pw", some "admin", some true⟩]
        "ghost" "pw" = .error ⟨401, "Пользователь не найден"⟩ :=
  ⟨(C5_authenticate_user_check_order
      [⟨1, "root", "r@x.com", bcrypt_hash "pw", some "admin", some true⟩]
      "root" "pw").2.2.2.1
      ⟨1, "root", "r@x.com", bcrypt_hash "pw", some "admin", some true⟩
      (by decide) (by decide) (by decide),
   (C5_authenticate_user_check_order
      [⟨1, "root", "r@x.com", bcrypt_hash "pw", some "admin", some true⟩]
      "ghost" "pw").1 (by decide)⟩

/-- C6: token codec round-trip — decoding a token produced by
`create_access_token` with the same secret, at any time strictly
before the embedded expiry, succeeds and yields exactly the encoded
claims (subject, id, role, admin flag) together with the expiry
`issue time + delta`. -/
theorem C6_token_roundtrip (username : String) (user_id : Nat)
    (is_role : Option String) (is_admin : Option Bool)
    (delta now now2 : Nat) (secret : String)
    (hbefore : now2 < now + delta) :
    jwt_decode
        (create_access_token username user_id is_role is_admin delta now secret)
        secret now2 =
      .ok ⟨some username, some user_id, is_role, is_admin,
           some (now + delta)⟩ := by
  unfold jwt_decode create_access_token
  simp [Nat.not_lt.mpr (Nat.le_of_lt hbefore)]

/-- C6 witness: a concrete round-trip 100 seconds into a 20-minute
token's life. -/
theorem C6_token_roundtrip_witness :
    jwt_decode
        (create_access_token "alice" 7 (some "client") (some true)
          twentyMinutes 0 "s") "s" 100 =
      .ok ⟨some "alice", some 7, some "client", some true,
           some twentyMinutes⟩ :=
  C6_token_roundtrip "alice" 7 (some "client") (some true)
    twentyMinutes 0 100 "s" (by decide)

/-- C7: every successful registration stores a row whose role is fixed
to `"client"`, whose admin flag is fixed to `false`, and whose
password is the hash of the supplied plaintext — the request schema
carries only name, email and password, so no input can influence the
stored role or admin flag. -/
theorem C7_registration_fixes_role_and_admin (db : List User)
    (cu : CreateUser) (hfresh : emailExists db cu.email = false) :
    Auth.create_user db cu =
      (db ++ [⟨nextId db, cu.name, cu.email, bcrypt_hash cu.password,
               some "client", some false⟩],
       ⟨some 201, "Пользователь успешно создан"⟩) := by
  unfold Auth.create_user
  simp [hfresh]

/-- C7 witness: a concrete registration creating a fixed-policy row. -/
theorem C7_registration_fixes_role_and_admin_witness :
    Auth.create_user [] ⟨"alice", "a@x.com", "pw1"⟩ =
      ([⟨1, "alice", "a@x.com", bcrypt_hash "pw1", some "client",
         some false⟩],
       ⟨some 201, "Пользователь успешно создан"⟩) :=
  C7_registration_fixes_role_and_admin [] ⟨"alice", "a@x.com", "pw1"⟩
    (by decide)

/-- C8: the list-users route fails 403 for every identity whose admin
flag is not truthy; for every admin identity it returns the page
`offset skip, limit limit`, which holds at most `limit` records, each
the id/name/email projection of a stored user — the password hash is
not part of the response row. -/
theorem C8_all_users_forbidden_or_page (db : List User)
    (ctx : IdentityContext) (skip limit : Nat) :
    (truthyOptBool ctx.is_admin = false →
      Users.all_users db ctx skip limit =
        .error ⟨403, "Доступ запрещен. Необходимы права администратора."⟩) ∧
    (truthyOptBool ctx.is_admin = true →
      Users.all_users db ctx skip limit =
        .ok (((db.drop skip).take limit).map toViewsUser) ∧
      (((db.drop skip).take limit).map toViewsUser).length ≤ limit ∧
      ∀ v ∈ ((db.drop skip).take limit).map toViewsUser,
        ∃ u ∈ db, v = toViewsUser u) := by
  constructor
  · intro h
    unfold Users.all_users
    simp [h]
  · intro h
    refine ⟨by unfold Users.all_users; simp [h], ?_, ?_⟩
    · rw [List.length_map, List.length_take]
      exact min_le_left _ _
    · intro v hv
      rw [List.mem_map] at hv
      obtain ⟨u, hu, huv⟩ := hv
      exact ⟨u, List.mem_of_mem_drop (List.mem_of_mem_take hu), huv.symm⟩

/-- C8 witness: a non-admin identity is refused; an admin identity
over a two-row store with the default paging gets both projected
rows. -/
theorem C8_all_users_forbidden_or_page_witness :
    Users.all_users
        [⟨1, "a", "a@x.com", "h1", some "client", some false⟩,
         ⟨2, "b", "b@x.com", "h2", some "client", some false⟩]
        ⟨some "u", some 3, some false⟩ 0 10 =
      .error ⟨403, "Доступ запрещен. Необходимы права администратора."⟩ ∧
    Users.all_users
        [⟨1, "a", "a@x.com", "h1", some "client", some false⟩,
         ⟨2, "b", "b@x.com", "h2", some "client", some false⟩]
        ⟨some "r", some 9, some true⟩ 0 10 =
      .ok [⟨1, "a", "a@x.com"⟩, ⟨2, "b", "b@x.com"⟩] :=
  ⟨(C8_all_users_forbidden_or_page
      [⟨1, "a", "a@x.com", "h1", some "client", some false⟩,
       ⟨2, "b", "b@x.com", "h2", some "client", some false⟩]
      ⟨some "u", some 3, some false⟩ 0 10).1 rfl,
   ((C8_all_users_forbidden_or_page
      [⟨1, "a", "a@x.com", "h1", some "client", some false⟩,
       ⟨2, "b", "b@x.com", "h2", some "client", some false⟩]
      ⟨some "r", some 9, some true⟩ 0 10).2 rfl).1⟩

/-- C9: the admin-protected create route stores the supplied password
verbatim and leaves the new row's role and admin columns unset,
whereas registration on the same input stores the bcrypt hash with
role `"client"` and admin `false`; the hash always differs from the
plaintext. -/
theorem C9_admin_create_stores_plaintext (db : List User)
    (cu : CreateUser) (ctx : IdentityContext)
    (hadm : truthyOptBool ctx.is_admin = true)
    (hfresh : emailExists db cu.email = false) :
    Users.create_user db cu ctx =
      .ok (db ++ [⟨nextId db, cu.name, cu.email, cu.password, none, none⟩],
           ⟨201, "Пользователь успешно создан!", "Successful"⟩) ∧
    (Auth.create_user db cu).1 =
      db ++ [⟨nextId db, cu.name, cu.email, bcrypt_hash cu.password,
              some "client", some false⟩] ∧
    bcrypt_hash cu.password ≠ cu.password := by
  refine ⟨?_, ?_, ?_⟩
  · unfold Users.create_user
    simp [hadm, hfresh]
  · unfold Auth.create_user
    simp [hfresh]
  · intro h
    have hlen := congrArg String.length h
    have h7 : ("$2b$12$" : String).length = 7 := rfl
    rw [bcrypt_hash, String.length_append, h7] at hlen
    omega

/-- C9 witness: a concrete admin-created row holding the plaintext
password, next to the hashed registration row. -/
theorem C9_admin_create_stores_plaintext_witness :
    Users.create_user [] ⟨"carl", "c@x.com", "secretpw"⟩
        ⟨some "r", some 9, some true⟩ =
      .ok ([⟨1, "carl", "c@x.com", "secretpw", none, none⟩],
           ⟨201, "Пользователь успешно создан!", "Successful"⟩) ∧
    (Auth.create_user [] ⟨"carl", "c@x.com", "secretpw"⟩).1 =
      [⟨1, "carl", "c@x.com", bcrypt_hash "secretpw", some "client",
        some false⟩] ∧
    bcrypt_hash "secretpw" ≠ "secretpw" :=
  C9_admin_create_stores_plaintext [] ⟨"carl", "c@x.com", "secretpw"⟩
    ⟨some "r", some 9, some true⟩ (by decide) (by decide)

/-- C10: every identity context the access guard resolves carries
admin `some true`; consequently, for a request entering a protected
handler through the guard, the non-admin rejection branches of
`all_users`, the admin `create_user`, `update_user` and `delete_user`
can never be taken. -/
theorem C10_guard_identity_always_admin (token : Token) (secret : String)
    (now : Nat) (ctx : IdentityContext)
    (h : get_current_user token secret now = .ok ctx) :
    ctx.is_admin = some true ∧
    (∀ db skip limit, Users.all_users db ctx skip limit =
        .ok (((db.drop skip).take limit).map toViewsUser)) ∧
    (∀ db cu, Users.create_user db cu ctx ≠
        .error (.http ⟨401, "You must be an admin user for this"⟩)) ∧
    (∀ db uid uu, Users.update_user db uid uu ctx ≠
        .error ⟨403, "Доступ запрещен. Необходимы права администратора."⟩) ∧
    (∀ db uid, Users.delete_user db uid ctx ≠
        .error ⟨403, "Доступ запрещен. Необходимы права администратора."⟩) := by
  have hadm : ctx.is_admin = some true := by
    unfold get_current_user at h
    split at h
    · exact absurd h (by simp)
    · exact absurd h (by simp)
    · rename_i payload hdec
      unfold processPayload at h
      split at h
      · exact absurd h (by simp)
      · rename_i hnn
        split at h
        · exact absurd h (by simp)
        · split at h
          · exact absurd h (by simp)
          · rw [Except.ok.injEq] at h
            rw [← h]
            exact (truthyOptBool_eq_true_iff payload.is_admin).mp
              (by simpa using hnn)
  have htruthy : truthyOptBool ctx.is_admin = true := by
    rw [hadm]; rfl
  refine ⟨hadm, ?_, ?_, ?_, ?_⟩
  · intro db skip limit
    unfold Users.all_users
    simp [htruthy]
  · intro db cu heq
    unfold Users.create_user at heq
    rw [htruthy] at heq
    simp at heq
    split at heq <;> simp at heq
  · intro db uid uu heq
    unfold Users.update_user at heq
    rw [htruthy] at heq
    simp at heq
    split at heq <;> simp at heq
  · intro db uid heq
    unfold Users.delete_user at heq
    rw [htruthy] at heq
    simp at heq
    split at heq <;> simp at heq

/-- C10 witness: a concretely resolved identity has admin `some true`
and passes the list-users gate. -/
theorem C10_guard_identity_always_admin_witness :
    (⟨some "a", some 1, some true⟩ : IdentityContext).is_admin =
        some true ∧
    Users.all_users [] ⟨some "a", some 1, some true⟩ 0 10 = .ok [] :=
  have h := C10_guard_identity_always_admin
    (.jwt ⟨⟨some "a", some 1, some "client", some true, some 100⟩, "s"⟩)
    "s" 0 ⟨some "a", some 1, some true⟩ rfl
  ⟨h.1, h.2.1 [] 0 10⟩

end AuthService
